import Mathlib

/-!
Verification development for the KB-Populator pipeline (activities, dining,
accommodation enrichment pipelines).

The Python sources are shallowly embedded: JSON values become the inductive
type JValue, Python dicts become ordered association lists (Dict) with
Python's insertion-order and update-in-place semantics, and each outbound
HTTP call is an oracle value (the outcome the remote service produced),
so every pipeline function is a pure function of its oracle environment.
The JSON parser (json.loads) is an uninterpreted oracle function
jsonParse : String -> Option JValue supplied by the environment; code-side
fence stripping is embedded explicitly and applied before the oracle.
-/

namespace KB

/-- JSON values as produced by json.loads. -/
inductive JValue where
  | jnull
  | jbool (b : Bool)
  | jnum (q : ℚ)
  | jstr (s : String)
  | jarr (xs : List JValue)
  | jobj (kvs : List (String × JValue))

/-- Python dict embedded as an ordered association list (insertion order,
unique keys in all dicts the embedded code builds). -/
abbrev Dict := List (String × JValue)

/-- Python d[k] / d.get(k): first binding of the key, if any. -/
def Dict.get? (d : Dict) (k : String) : Option JValue :=
  match d with
  | [] => none
  | (k₁, v) :: rest => if k₁ = k then some v else Dict.get? rest k

/-- Python "k in d". -/
def Dict.hasKey (d : Dict) (k : String) : Bool :=
  (Dict.get? d k).isSome

/-- Python d[k] = v: update in place when the key exists, else append
(insertion-order semantics of Python dicts). -/
def Dict.set (d : Dict) (k : String) (v : JValue) : Dict :=
  match d with
  | [] => [(k, v)]
  | (k₁, v₁) :: rest => if k₁ = k then (k₁, v) :: rest else (k₁, v₁) :: Dict.set rest k v

/-- Python list(d.keys()). -/
def Dict.keys (d : Dict) : List String :=
  d.map Prod.fst

/-- Outcome of one LLM chat-completion HTTP call, as observed by the calling
code: a transport-level failure (requests exception / non-2xx), a failure of
response.json(), a parsed body without a non-empty choices list, or the
content string of choices[0].message.content. -/
inductive LLMResp where
  | transportError (msg : String)
  | respJsonError (msg : String)
  | noChoices
  | content (raw : String)

/-- Strip optional markdown code fences, as done identically in every stage:
content.strip(); drop a leading three-backtick-json marker (7 chars) and a
trailing three-backtick marker (3 chars); strip again. -/
def stripFences (content : String) : String :=
  let c := content.trim
  let c := if c.startsWith "```json" then c.drop 7 else c
  let c := if c.endsWith "```" then c.dropRight 3 else c
  c.trim

/-- Python truthiness fallback: context_city if context_city else "Unknown". -/
def fallbackCity : Option String → String
  | some c => if c = "" then "Unknown" else c
  | none => "Unknown"

/-- Embedding of activities/openaicalls.py get_google_places_search_params.
The Azure OpenAI call outcome is the oracle resp; jsonParse is the json.loads
oracle applied to the fence-stripped content. Any exception (transport,
response-json failure, .get on a non-dict parse result) is absorbed by the
outer except into the fallback dict, exactly as in the source. -/
def get_google_places_search_params (jsonParse : String → Option JValue)
    (resp : LLMResp) (activity_name : String) (context_city : Option String) : Dict :=
  let fallback : Dict :=
    [("place_name", .jstr activity_name.trim),
     ("city", .jstr (fallbackCity context_city))]
  match resp with
  | .content raw =>
    match jsonParse (stripFences raw) with
    | some (.jobj kvs) =>
      [("place_name", (Dict.get? kvs "place_name").getD (.jstr activity_name)),
       ("city", (Dict.get? kvs "city").getD (.jstr (fallbackCity context_city)))]
    | some _ => fallback   -- .get on a non-dict raises AttributeError -> outer except
    | none => fallback     -- json.JSONDecodeError branch
  | .transportError _ => fallback
  | .respJsonError _ => fallback
  | .noChoices => fallback

/-- One photo object of the places API response; photo.get('name', '') is
modelled by storing the name with "" for an absent key. -/
structure GPhoto where
  name : String

/-- One review object: review.get('text', \x7b\x7d).get('text', '') and
review.get('publishTime', 'N/A'). -/
structure GReview where
  text : String
  publishTime : Option String

/-- The fields of one place object of the places API response that
search_places_with_details reads (field-masked response). An absent key is
none; editorialSummary / generativeSummary are two-level: outer option is
key presence, inner option is presence of their text sub-key.
weekdayDescriptions is none when regularOpeningHours is absent or falsy. -/
structure GPlace where
  formattedAddress : Option String
  types : List String
  editorialSummary : Option (Option String)
  generativeSummary : Option (Option String)
  rating : Option ℚ
  websiteUri : Option String
  googleMapsUri : Option String
  weekdayDescriptions : Option (List String)
  photos : List GPhoto
  reviews : List GReview

/-- Outcome of the places text-search HTTP call: requests exception,
response.json() failure, any other exception, or the parsed list of places. -/
inductive PlacesResp where
  | transportError (msg : String)
  | parseError (msg : String)
  | otherError (msg : String)
  | ok (places : List GPlace)

/-- Python s.rstrip(c): drop every trailing occurrence of the character. -/
def rstripChar (c : Char) (s : String) : String :=
  ⟨(s.data.reverse.dropWhile (· = c)).reverse⟩

/-- Website cleaning of search_places_with_details: when truthy and not
"N/A", split at the first question mark and strip trailing slashes. -/
def cleanWebsite (w : String) : String :=
  if w ≠ "N/A" ∧ w ≠ "" then
    let w := if w.contains '?' then ((w.splitOn "?").headD w) else w
    rstripChar '/' w
  else w

/-- Unicode cleanup applied to each weekday description line: thin space,
en dash, narrow no-break space and non-breaking space become ASCII. -/
def cleanHourText (s : String) : String :=
  (((s.replace " " " ").replace "–" "-").replace " " " ").replace " " " "

/-- URL built for a photo name by search_places_with_details. -/
def photoUrl (apiKey photoName : String) : String :=
  "https://places.googleapis.com/v1/" ++ photoName ++
    "/media?maxHeightPx=800&maxWidthPx=800&key=" ++ apiKey

/-- The while-loop that pads the photo URL list with "N/A" until its length
is 3. -/
def padPhotoUrls (l : List String) : List String :=
  if _h : l.length < 3 then padPhotoUrls (l ++ ["N/A"]) else l
termination_by 3 - l.length
decreasing_by simp; omega

/-- Category extraction: joined type list when truthy, else the placeholder. -/
def placeCategory (place : GPlace) : String :=
  if place.types ≠ [] then String.intercalate ", " place.types else "N/A"

/-- Description extraction: editorial summary text first, then generative
summary text, else the placeholder. -/
def placeDescription (place : GPlace) : String :=
  match place.editorialSummary with
  | some t => t.getD "N/A"
  | none =>
    match place.generativeSummary with
    | some t => t.getD "N/A"
    | none => "N/A"

/-- Rating extraction: the number when present, else the placeholder string. -/
def placeRating (place : GPlace) : JValue :=
  match place.rating with
  | some q => .jnum q
  | none => .jstr "N/A"

/-- Opening hours extraction: cleaned weekday descriptions when the list is
present and truthy, else the placeholder string. -/
def placeOpeningHours (place : GPlace) : JValue :=
  match place.weekdayDescriptions with
  | some (h :: t) => .jarr (((h :: t).map cleanHourText).map .jstr)
  | _ => .jstr "N/A"

/-- The photo URL extraction loop plus the padding while-loop. -/
def photoUrlsOf (apiKey : String) (photos : List GPhoto) : List String :=
  padPhotoUrls ((photos.take 3).foldl
    (fun acc ph => if ph.name ≠ "" then acc ++ [photoUrl apiKey ph.name] else acc) [])

/-- The review collection loop: keep non-empty texts with publish times. -/
def reviewsOf (reviews : List GReview) : List JValue :=
  reviews.foldl
    (fun acc r =>
      if r.text ≠ "" then
        acc ++ [JValue.jobj [("text", .jstr r.text),
                             ("publish_time", .jstr (r.publishTime.getD "N/A"))]]
      else acc) []

/-- Embedding of google_places.py search_places_with_details (activities
variant; the dining and accommodation packages import an identically named
function from their own google_places modules, which are not in the sources;
per the spec there is a single PlacesLookup design, so this embedding is used
for all three pipelines). The HTTP outcome is the oracle resp; apiKey is the
configured places key (used in photo URLs). Errors return dicts keyed by
descriptive phrases, zero candidates return the empty dict, and otherwise the
fields of the first place are extracted; the named let-blocks of the source
body are the helper definitions above. -/
def search_places_with_details (apiKey : String) (resp : PlacesResp) : Dict :=
  match resp with
  | .transportError msg => [("Error making Google Places API request", .jstr msg)]
  | .parseError msg => [("Error parsing JSON response in Google Places API", .jstr msg)]
  | .otherError msg => [("Unexpected error in Google Places API", .jstr msg)]
  | .ok [] => []
  | .ok (place :: _) =>
    [("Formatted Address", .jstr (place.formattedAddress.getD "N/A")),
     ("Category", .jstr (placeCategory place)),
     ("Description", .jstr (placeDescription place)),
     ("google_rating", placeRating place),
     ("website", .jstr (cleanWebsite (place.websiteUri.getD "N/A"))),
     ("google_maps_url", .jstr (place.googleMapsUri.getD "N/A")),
     ("opening_hours", placeOpeningHours place),
     ("photo_urls", .jarr ((photoUrlsOf apiKey place.photos).map .jstr)),
     ("reviews", .jarr (reviewsOf place.reviews))]

/-- Modelled from the spec: dining/google_places.py and
accommodation/google_places.py are imported by dining_populator.py and
accommodation_populator.py but are absent from src. Spec 4.1 gives
PlacesLookup the same field extraction and the same empty-mapping
zero-candidate behavior as the activities variant above, but describes its
failures as a mapping with an explicit error key on transport or parse
failure (spec 7: errors are plain result values carrying an error
key/message), so the failure branches differ from the activities source. -/
def spec_search_places_with_details (apiKey : String) (resp : PlacesResp) : Dict :=
  match resp with
  | .transportError msg => [("error", .jstr msg)]
  | .parseError msg => [("error", .jstr msg)]
  | .otherError msg => [("error", .jstr msg)]
  | .ok places => search_places_with_details apiKey (.ok places)

/-- Char-list substring test: Python s1 in s2 for strings. -/
def containsSub (pat : List Char) : List Char → Bool
  | [] => pat.isEmpty
  | c :: rest => pat.isPrefixOf (c :: rest) || containsSub pat rest

/-- Python field in x for a JSON value x: key membership for dicts, element
equality for lists, substring test for strings; numbers, booleans and null
are not containers, so the test raises TypeError (modelled as none). -/
def pyContains (v : JValue) (field : String) : Option Bool :=
  match v with
  | .jobj kvs => some (Dict.hasKey kvs field)
  | .jarr xs => some (xs.any (fun x =>
      match x with
      | .jstr s => s = field
      | _ => false))
  | .jstr s => some (containsSub field.data s.data)
  | _ => none

/-- One back-fill loop iteration on a non-dict parse result: the loop
continues only when the membership test returns true; a false test triggers
an item assignment whose TypeError, like the TypeError a non-container
raises at the test itself, reaches the outer except identically. -/
def pyFieldPresent (v : JValue) (field : String) : Bool :=
  match pyContains v field with
  | some true => true
  | _ => false

/-- Lookup under a JSON value that is an object; none otherwise. -/
def JValue.objGet? : JValue → String → Option JValue
  | .jobj kvs, k => Dict.get? kvs k
  | _, _ => none

/-- Python exceptions that can escape the embedded orchestrators. -/
inductive PyError where
  | keyError (k : String)
  | typeError (msg : String)

/-- The boolean fields of the activities formatter back-fill list. -/
def activitiesBoolFields : List String :=
  ["Must_Do", "Group_Friendly", "Offbeat", "Historic_Cultural",
   "Party", "Pet_Friendly", "Adventurous", "Kid_Friendly",
   "Romantic", "Wellness_Relaxation", "Senior_Citizen_Friendly"]

/-- required_fields of format_perplexity_output, in source order. Note the
four geographic fields (Country and the three Destination levels) are not in
this list. -/
def activitiesRequiredFields : List String :=
  ["Category", "Description", "Price_Adult_INR", "Price_Child_INR",
   "Duration", "Timings", "Season_Operational_Months", "Inclusions",
   "Exclusions"] ++ activitiesBoolFields

/-- Default chosen by the activities back-fill loop for an absent field. -/
def activitiesDefault (field : String) : JValue :=
  if field ∈ activitiesBoolFields then .jbool false
  else if field = "Price_Adult_INR" ∨ field = "Price_Child_INR" then .jnum 0
  else .jstr "Not Available"

/-- The back-fill loop shared in shape by the activities and accommodation
formatters: for each required field, if the parsed dict lacks it, insert the
default for that field. -/
def backfill (defaultFor : String → JValue) : List String → Dict → Dict
  | [], d => d
  | f :: rest, d =>
    backfill defaultFor rest (if d.hasKey f then d else d.set f (defaultFor f))

/-- Embedding of activities/openaicalls.py format_perplexity_output, which
returns Any: a dict in the common cases, embedded as jobj. The
duration/price normalization and yes-no coercion live only in the prompt
text sent to the model; locally the code strips fences, parses, and
back-fills the twenty required fields of a parsed object. A parsed
non-object is walked by the same loop: the first required field it does not
contain triggers an item assignment whose TypeError reaches the outer
except and yields the generic error dict, but a list or string containing
every required field name completes the loop without any assignment and is
returned unchanged. -/
def format_perplexity_output (jsonParse : String → Option JValue)
    (resp : LLMResp) : JValue :=
  match resp with
  | .content raw =>
    match jsonParse (stripFences raw) with
    | some (.jobj kvs) => .jobj (backfill activitiesDefault activitiesRequiredFields kvs)
    | some v =>
      if activitiesRequiredFields.all (pyFieldPresent v) then v
      else .jobj [("error", .jstr "Unexpected error in Azure OpenAI formatting: TypeError")]
    | none => .jobj [("error", .jstr "Failed to parse Azure OpenAI response as JSON")]
  | .noChoices => .jobj [("error", .jstr "No valid response received from Azure OpenAI")]
  | .transportError msg =>
    .jobj [("error", .jstr ("Azure OpenAI API request failed: " ++ msg))]
  | .respJsonError msg =>
    .jobj [("error", .jstr ("Unexpected error in Azure OpenAI formatting: " ++ msg))]

/-- The boolean fields of the accommodation formatter back-fill list. -/
def accommodationBoolFields : List String :=
  ["Pool", "Pet Friendly", "View", "Kid Friendly", "Romantic",
   "Senior Citizen Friendly"]

/-- required_fields of format_with_azure_openai, in source order. The third
destination level is spelled with Zone here, although the expected JSON
structure in the same function's prompt spells it Destination L3 (Area). -/
def accommodationRequiredFields : List String :=
  ["Country", "Destination L1 (State)", "Destination L2 (City)",
   "Destination L3 (Zone/ Area)", "Category", "Name", "Description",
   "Pool", "Pet Friendly", "View", "Kid Friendly", "Romantic",
   "Senior Citizen Friendly", "Google Rating"]

/-- Default chosen by the accommodation back-fill loop for an absent field. -/
def accommodationDefault (field : String) : JValue :=
  if field ∈ accommodationBoolFields then .jbool false else .jstr "N/A"

/-- Embedding of accommodation/openaicalls.py format_with_azure_openai,
which returns Any: same structure as the activities formatter, including
the unchanged return of a parsed non-object that contains every required
field name. -/
def format_with_azure_openai (jsonParse : String → Option JValue)
    (resp : LLMResp) : JValue :=
  match resp with
  | .content raw =>
    match jsonParse (stripFences raw) with
    | some (.jobj kvs) => .jobj (backfill accommodationDefault accommodationRequiredFields kvs)
    | some v =>
      if accommodationRequiredFields.all (pyFieldPresent v) then v
      else .jobj [("error", .jstr "Unexpected error in Azure OpenAI formatting: TypeError")]
    | none => .jobj [("error", .jstr "Failed to parse Azure OpenAI response as JSON")]
  | .noChoices => .jobj [("error", .jstr "No valid response received from Azure OpenAI")]
  | .transportError msg =>
    .jobj [("error", .jstr ("Azure OpenAI API request failed: " ++ msg))]
  | .respJsonError msg =>
    .jobj [("error", .jstr ("Unexpected error in Azure OpenAI formatting: " ++ msg))]

/-- expected_structure of format_dining_perplexity_output, in source order. -/
def expectedDiningStructure : Dict :=
  [("Country", .jstr "N/A"),
   ("Destination L1 (State)", .jstr "N/A"),
   ("Destination L2 (City)", .jstr "N/A"),
   ("Destination L3 (Area)", .jstr "N/A"),
   ("Description", .jstr "N/A"),
   ("Recommended_Dishes", .jstr "N/A"),
   ("Meals_Served", .jobj
     [("Breakfast", .jbool false), ("Lunch", .jbool false),
      ("Dinner", .jbool false), ("Late_Night", .jbool false),
      ("24_Hours", .jbool false)]),
   ("Private_Dining", .jbool false),
   ("Party", .jbool false),
   ("Service_Style", .jobj
     [("Michelin_Star", .jbool false), ("Fine_Dining", .jbool false),
      ("Casual_Dining", .jbool false), ("Bistro", .jbool false),
      ("Cafe", .jbool false), ("Bakery", .jbool false),
      ("Breweries", .jbool false), ("Farm_to_Table", .jbool false),
      ("Cocktail_Bars", .jbool false), ("Speakeasys", .jbool false),
      ("Tapas_Bar", .jbool false), ("Rooftop_Bar", .jbool false),
      ("Dessert_Spot", .jbool false)]),
   ("Cuisine", .jobj
     [("Fast_Food", .jbool false), ("Modern_Indian", .jbool false),
      ("Indian", .jbool false), ("Continental", .jbool false),
      ("Finger_Food", .jbool false), ("Burmese", .jbool false),
      ("Peruvian", .jbool false), ("Lebanese", .jbool false),
      ("Afghan", .jbool false), ("Malaysian", .jbool false),
      ("Vietnamese", .jbool false), ("Pan_Asian", .jbool false),
      ("Mediterranean", .jbool false), ("Thai", .jbool false),
      ("Italian", .jbool false), ("Japanese", .jbool false),
      ("Mexican", .jbool false), ("Modern_European", .jbool false),
      ("Contemporary_Dining", .jbool false), ("Molecular_Gastronomy", .jbool false)]),
   ("Dietary", .jobj
     [("Vegetarian_Non_Vegetarian", .jbool false), ("Vegetarian", .jbool false),
      ("Vegan_Options", .jbool false), ("Seafood_Speciality", .jbool false)]),
   ("Guest_Persona", .jobj
     [("Couple_Friendly", .jbool false), ("Family_Friendly", .jbool false),
      ("Especially_For_Kids", .jbool false), ("No_Kids_Allowed", .jbool false),
      ("Senior_Friendly", .jbool false), ("Pet_Friendly", .jbool false)]),
   ("Vibe", .jobj
     [("Romantic_Intimate", .jbool false), ("Refined_Elegant", .jbool false),
      ("Luxurious_Formal", .jbool false), ("Bohemian_Playful", .jbool false),
      ("Modern_Chic", .jbool false), ("Vibrant_Lively", .jbool false),
      ("Relaxed_Cozy", .jbool false)]),
   ("Reservation_Recommended", .jbool false),
   ("Alcohol_Served", .jbool false)]

/-- The six nested group fields of the dining structure. -/
def diningGroupNames : List String :=
  ["Meals_Served", "Service_Style", "Cuisine", "Dietary", "Guest_Persona", "Vibe"]

/-! Embedding of the nested merge_with_defaults helper of
format_dining_perplexity_output: start from the expected structure as result,
walk the model dict in order; a key unknown to the result is dropped, two
dicts are merged recursively, any other supplied value replaces the default.
The per-entry update (the if-isinstance body of the source) is split into
mergeVal so that both functions are plain structural matches. -/
mutual

/-- Recursive merge of the model dict (second argument) into the defaults
dict (first argument, the evolving result). -/
def merge_with_defaults : Dict → Dict → Dict
  | result, [] => result
  | result, (key, value) :: rest =>
    merge_with_defaults
      ((Dict.get? result key).elim result
        (fun rv => Dict.set result key (mergeVal value rv)))
      rest

/-- The value stored for one model entry whose key exists in the result:
recursive merge when both sides are dicts, else the model value verbatim. -/
def mergeVal : JValue → JValue → JValue
  | .jobj avs, .jobj evs => .jobj (merge_with_defaults evs avs)
  | av, _ => av

end

/-- Embedding of dining/openaicalls.py format_dining_perplexity_output.
Unlike the two back-fill formatters, a parsed non-object always becomes the
generic error dict here: merge_with_defaults immediately calls .items() on
it, and the AttributeError passes the inner json-only except and is caught
by the outer except. -/
def format_dining_perplexity_output (jsonParse : String → Option JValue)
    (resp : LLMResp) : Dict :=
  match resp with
  | .content raw =>
    match jsonParse (stripFences raw) with
    | some (.jobj kvs) => merge_with_defaults expectedDiningStructure kvs
    | some _ => [("error", .jstr "Unexpected error in Azure OpenAI formatting: AttributeError")]
    | none => [("error", .jstr "Failed to parse Azure OpenAI response as JSON")]
  | .noChoices => [("error", .jstr "No valid response received from Azure OpenAI")]
  | .transportError msg => [("error", .jstr ("Azure OpenAI API request failed: " ++ msg))]
  | .respJsonError msg => [("error", .jstr ("Unexpected error in Azure OpenAI formatting: " ++ msg))]

/-- Python s.startswith(p), in a char-list implementation so that concrete
runs compute inside the kernel. -/
def pyStartsWith (s p : String) : Bool :=
  p.data.isPrefixOf s.data

/-- Embedding of activities/perplexity_analyzer.py
analyze_activity_with_perplexity: key-format precondition, then the
empty-input guard, then the HTTP oracle; a parsable content is returned under
parsed_data together with the raw text, otherwise raw text only. -/
def analyze_activity_with_perplexity (jsonParse : String → Option JValue)
    (apiKey : String) (resp : LLMResp) (places_api_output : Dict) : Dict :=
  if ¬ pyStartsWith apiKey "pplx-" then [("error", .jstr "Invalid API key format")]
  else if places_api_output.isEmpty then [("error", .jstr "No places data provided")]
  else
    match resp with
    | .content raw =>
      let c := stripFences raw
      match jsonParse c with
      | some v => [("parsed_data", v), ("raw_response", .jstr c), ("status", .jstr "success")]
      | none => [("raw_response", .jstr c), ("status", .jstr "success_raw_only")]
    | .noChoices => [("error", .jstr "No valid response from Perplexity API")]
    | .transportError msg => [("error", .jstr ("API request failed: " ++ msg))]
    | .respJsonError msg => [("error", .jstr ("Unexpected error: " ++ msg))]

/-- Embedding of dining/perplexity_analyzer.py analyze_dining_with_perplexity
(identical observable structure to the activities analyzer). -/
def analyze_dining_with_perplexity (jsonParse : String → Option JValue)
    (apiKey : String) (resp : LLMResp) (places_api_output : Dict) : Dict :=
  analyze_activity_with_perplexity jsonParse apiKey resp places_api_output

/-- Embedding of dining/perplexity_analyzer.py get_dining_info: unwrap
parsed_data when present; the value it returns can be any JSON value. -/
def get_dining_info (jsonParse : String → Option JValue)
    (apiKey : String) (resp : LLMResp) (places_api_output : Dict) : JValue :=
  let result := analyze_dining_with_perplexity jsonParse apiKey resp places_api_output
  if result.hasKey "error" then .jobj result
  else
    match Dict.get? result "parsed_data" with
    | some v => v
    | none => .jobj [("raw_response", (Dict.get? result "raw_response").getD (.jstr "No data available"))]

/-- Embedding of accommodation/perplexity_analyzer.py
analyze_place_with_perplexity: same guards; the content is returned raw,
never parsed. (The reviews join in the prompt construction would raise on a
list of review objects, but populate_accommodation always passes a context
without a reviews key, so that path is unreachable from the pipeline.) -/
def analyze_place_with_perplexity (apiKey : String) (resp : LLMResp)
    (places_api_output : Dict) : Dict :=
  if ¬ pyStartsWith apiKey "pplx-" then [("error", .jstr "Invalid Perplexity API key format")]
  else if places_api_output.isEmpty then [("error", .jstr "No places data provided")]
  else
    match resp with
    | .content raw => [("raw_response", .jstr raw), ("status", .jstr "success")]
    | .noChoices => [("error", .jstr "No valid response from Perplexity API")]
    | .transportError msg => [("error", .jstr ("API request failed: " ++ msg))]
    | .respJsonError msg => [("error", .jstr ("Unexpected error: " ++ msg))]

/-- Oracle environment of one populate_activities run: the json.loads
oracle, the configured keys, and the outcome of each of the four HTTP calls
(resolver, places search, research, formatter). -/
structure ActivitiesEnv where
  jsonParse : String → Option JValue
  placesApiKey : String
  perplexityKey : String
  resolverResp : LLMResp
  placesResp : PlacesResp
  perplexityResp : LLMResp
  formatResp : LLMResp

/-- The keys skipped by the carry-over loops of populate_activities and
populate_dining. -/
def carryOverSkipKeys : List String :=
  ["Category", "Description", "reviews", "Formatted Address"]

/-- The carry-over loop: copy every place_details item whose key is not in
the skip list into the formatted output. -/
def carryOver : Dict → Dict → Dict
  | [], formatted_output => formatted_output
  | kv :: rest, formatted_output =>
    carryOver rest
      (if kv.1 ∈ carryOverSkipKeys then formatted_output
       else formatted_output.set kv.1 kv.2)

/-- Embedding of activities/activities_populator.py populate_activities.
Only the resolver result is checked for an error key; the places result and
the research result flow on unchecked (the research result is used only
inside the formatting prompt). For a dict formatter result the Name
assignment happens on every path that passes the resolver check, error
dicts included; for a non-dict formatter result the isinstance guard skips
the merge and the Name item assignment raises TypeError, which escapes the
orchestrator. -/
def populate_activities (env : ActivitiesEnv) (activity_name city : String) :
    Except PyError Dict :=
  let search_params :=
    get_google_places_search_params env.jsonParse env.resolverResp activity_name (some city)
  if search_params.hasKey "error" then .ok search_params
  else
    let place_details := search_places_with_details env.placesApiKey env.placesResp
    let _perplexity_analysis :=
      analyze_activity_with_perplexity env.jsonParse env.perplexityKey env.perplexityResp place_details
    match format_perplexity_output env.jsonParse env.formatResp with
    | .jobj formatted_output =>
      let formatted_output :=
        if ¬ Dict.hasKey formatted_output "error" then carryOver place_details formatted_output
        else formatted_output
      .ok (Dict.set formatted_output "Name" (.jstr activity_name))
    | _ => .error (.typeError "item assignment on a non-dict formatter result")

/-- Oracle environment of one populate_dining run. -/
structure DiningEnv where
  jsonParse : String → Option JValue
  placesApiKey : String
  perplexityKey : String
  placesResp : PlacesResp
  perplexityResp : LLMResp
  formatResp : LLMResp

/-- Embedding of dining/dining_populator.py populate_dining, over the
spec-modelled dining lookup: its failures carry the literal error key, so
the check after the places search short-circuits on them. The research
result is used only inside the formatting prompt; the dining formatter
always returns a dict, so the final Name assignment never raises. -/
def populate_dining (env : DiningEnv) (place_name _city : String) : Dict :=
  let place_data := spec_search_places_with_details env.placesApiKey env.placesResp
  if place_data.hasKey "error" then place_data
  else
    let _dining_info := get_dining_info env.jsonParse env.perplexityKey env.perplexityResp place_data
    let formatted_output := format_dining_perplexity_output env.jsonParse env.formatResp
    let formatted_output :=
      if ¬ formatted_output.hasKey "error" then carryOver place_data formatted_output
      else formatted_output
    formatted_output.set "Name" (.jstr place_name)

/-- Python d[k]: the value, or a KeyError. -/
def Dict.item (d : Dict) (k : String) : Except PyError JValue :=
  match Dict.get? d k with
  | some v => .ok v
  | none => .error (.keyError k)

/-- Oracle environment of one populate_accommodation run. -/
structure AccommodationEnv where
  jsonParse : String → Option JValue
  placesApiKey : String
  perplexityKey : String
  placesResp : PlacesResp
  perplexityResp : LLMResp
  formatResp : LLMResp

/-- Embedding of accommodation/accommodation_populator.py
populate_accommodation, over the spec-modelled accommodation lookup: an
error-keyed lookup failure is returned at the first check, while the empty
zero-candidate mapping passes it and the mandatory dict indexing that builds
the LLM context raises KeyError. The error check on the formatter result is
Python membership, so a non-dict formatter value either matches it (when it
contains the text error) or reaches the website item assignment, whose
TypeError escapes the orchestrator. Name is never overwritten. -/
def populate_accommodation (env : AccommodationEnv)
    (_accommodation_name _city : String) : Except PyError Dict :=
  let places_api_output := spec_search_places_with_details env.placesApiKey env.placesResp
  if places_api_output.hasKey "error" then .ok places_api_output
  else do
    let fa ← places_api_output.item "Formatted Address"
    let desc ← places_api_output.item "Description"
    let rating ← places_api_output.item "google_rating"
    let cat ← places_api_output.item "Category"
    let places_context_for_llms : Dict :=
      [("Formatted Address", fa), ("Description", desc),
       ("google_rating", rating), ("Category", cat)]
    let perplexity_output :=
      analyze_place_with_perplexity env.perplexityKey env.perplexityResp places_context_for_llms
    if perplexity_output.hasKey "error" then
      .ok [("error", .jstr "No perplexity data available")]
    else
      match format_with_azure_openai env.jsonParse env.formatResp with
      | .jobj formatted_output =>
        if Dict.hasKey formatted_output "error" then
          .ok [("error", .jstr "No formatted output available")]
        else do
          let website ← places_api_output.item "website"
          let photos ← places_api_output.item "photo_urls"
          let mapsUrl ← places_api_output.item "google_maps_url"
          .ok (Dict.set (Dict.set (Dict.set formatted_output "website" website)
                "photo_urls" photos) "google_maps_url" mapsUrl)
      | v =>
        match pyContains v "error" with
        | some true => .ok [("error", .jstr "No formatted output available")]
        | _ => .error (.typeError "item assignment on a non-dict formatter result")

/-! ### Generic dictionary lemmas -/

theorem Dict.get_set_self (d : Dict) (k : String) (v : JValue) :
    (Dict.set d k v).get? k = some v := by
  induction d with
  | nil => simp [Dict.set, Dict.get?]
  | cons hd tl ih =>
    obtain ⟨k₁, v₁⟩ := hd
    by_cases h : k₁ = k
    · simp [Dict.set, Dict.get?, h]
    · simp [Dict.set, Dict.get?, h, ih]

theorem Dict.get_set_ne (d : Dict) (k k₂ : String) (v : JValue) (h : k ≠ k₂) :
    (Dict.set d k v).get? k₂ = d.get? k₂ := by
  induction d with
  | nil => simp [Dict.set, Dict.get?, h]
  | cons hd tl ih =>
    obtain ⟨k₁, v₁⟩ := hd
    by_cases h₁ : k₁ = k
    · subst h₁; simp [Dict.set, Dict.get?, h]
    · simp [Dict.set, Dict.get?, h₁, ih]

theorem Dict.hasKey_set (d : Dict) (k k₂ : String) (v : JValue) :
    (Dict.set d k v).hasKey k₂ = (k = k₂ || d.hasKey k₂) := by
  by_cases h : k = k₂
  · subst h; simp [Dict.hasKey, Dict.get_set_self]
  · simp [Dict.hasKey, Dict.get_set_ne d k k₂ v h, h]

theorem Dict.keys_set_of_hasKey (d : Dict) (k : String) (v : JValue)
    (h : d.hasKey k = true) : (Dict.set d k v).keys = d.keys := by
  induction d with
  | nil => simp [Dict.hasKey, Dict.get?] at h
  | cons hd tl ih =>
    obtain ⟨k₁, v₁⟩ := hd
    by_cases h₁ : k₁ = k
    · simp [Dict.set, Dict.keys, h₁]
    · simp [Dict.hasKey, Dict.get?, h₁] at h
      simp [Dict.set, Dict.keys, h₁]
      exact ih h

theorem Dict.get_none_of_not_mem_keys (d : Dict) (k : String)
    (h : k ∉ d.keys) : d.get? k = none := by
  induction d with
  | nil => simp [Dict.get?]
  | cons hd tl ih =>
    obtain ⟨k₁, v₁⟩ := hd
    rw [show Dict.keys ((k₁, v₁) :: tl) = k₁ :: Dict.keys tl from rfl,
      List.mem_cons, not_or] at h
    have h₁ : ¬ k₁ = k := fun hk => h.1 hk.symm
    simp [Dict.get?, h₁, ih h.2]

/-! ### Back-fill lemmas -/

theorem backfill_get_of_hasKey (defaultFor : String → JValue)
    (fields : List String) (d : Dict) (f : String) (h : d.hasKey f = true) :
    (backfill defaultFor fields d).get? f = d.get? f := by
  induction fields generalizing d with
  | nil => rfl
  | cons g rest ih =>
    by_cases hg : d.hasKey g
    · simp only [backfill, if_pos hg]
      exact ih d h
    · by_cases hgf : g = f
      · subst hgf; simp [h] at hg
      · simp only [backfill, if_neg hg]
        have h₁ : (d.set g (defaultFor g)).hasKey f = true := by
          simp [Dict.hasKey_set, h]
        rw [ih (d.set g (defaultFor g)) h₁,
          Dict.get_set_ne d g f (defaultFor g) hgf]

theorem backfill_hasKey_of_hasKey (defaultFor : String → JValue)
    (fields : List String) (d : Dict) (f : String) (h : d.hasKey f = true) :
    (backfill defaultFor fields d).hasKey f = true := by
  have := backfill_get_of_hasKey defaultFor fields d f h
  simp only [Dict.hasKey] at h ⊢
  rw [this]; exact h

theorem backfill_get_of_mem_not_hasKey (defaultFor : String → JValue)
    (fields : List String) (d : Dict) (f : String)
    (hmem : f ∈ fields) (h : d.hasKey f = false) :
    (backfill defaultFor fields d).get? f = some (defaultFor f) := by
  induction fields generalizing d with
  | nil => cases hmem
  | cons g rest ih =>
    by_cases hgf : g = f
    · subst hgf
      have hset : (d.set g (defaultFor g)).hasKey g = true := by
        simp [Dict.hasKey, Dict.get_set_self]
      simp only [backfill, if_neg (by simp [h] : ¬ d.hasKey g = true)]
      rw [backfill_get_of_hasKey defaultFor rest (d.set g (defaultFor g)) g hset,
        Dict.get_set_self]
    · rcases List.mem_cons.mp hmem with h₁ | h₂
      · exact absurd h₁.symm hgf
      · by_cases hg : d.hasKey g
        · simp only [backfill, if_pos hg]
          exact ih d h₂ h
        · simp only [backfill, if_neg hg]
          have h₃ : (d.set g (defaultFor g)).hasKey f = false := by
            simp [Dict.hasKey_set, h, hgf]
          exact ih (d.set g (defaultFor g)) h₂ h₃

theorem backfill_hasKey_of_mem (defaultFor : String → JValue)
    (fields : List String) (d : Dict) (f : String) (hmem : f ∈ fields) :
    (backfill defaultFor fields d).hasKey f = true := by
  by_cases h : d.hasKey f
  · exact backfill_hasKey_of_hasKey defaultFor fields d f h
  · simp [Dict.hasKey,
      backfill_get_of_mem_not_hasKey defaultFor fields d f hmem (by simpa using h)]

theorem backfill_hasKey_false (defaultFor : String → JValue) (fields : List String)
    (d : Dict) (f : String) (hnf : f ∉ fields) (h : d.hasKey f = false) :
    (backfill defaultFor fields d).hasKey f = false := by
  induction fields generalizing d with
  | nil => exact h
  | cons g rest ih =>
    rw [List.mem_cons, not_or] at hnf
    by_cases hg : d.hasKey g
    · simp only [backfill, if_pos hg]
      exact ih d hnf.2 h
    · simp only [backfill, if_neg hg]
      refine ih _ hnf.2 ?_
      have hgf : ¬ g = f := fun hh => hnf.1 hh.symm
      rw [Dict.hasKey_set]
      simp [h, hgf]

/-! ### Merge-with-defaults lemmas -/

theorem mergeVal_obj (avs evs : Dict) :
    mergeVal (.jobj avs) (.jobj evs) = .jobj (merge_with_defaults evs avs) := by
  rw [mergeVal]

theorem mergeVal_scalar (v rv : JValue) (h : ∀ avs, v ≠ JValue.jobj avs) :
    mergeVal v rv = v := by
  cases v <;> cases rv <;> first
    | exact absurd rfl (h _)
    | simp [mergeVal]

theorem merge_keys (actual : Dict) : ∀ result : Dict,
    (merge_with_defaults result actual).keys = result.keys := by
  induction actual with
  | nil => intro result; rw [merge_with_defaults]
  | cons hd rest ih =>
    intro result
    obtain ⟨key, value⟩ := hd
    rw [merge_with_defaults]
    rcases h : Dict.get? result key with _ | rv
    · exact ih result
    · have hk : result.hasKey key = true := by simp [Dict.hasKey, h]
      simp only [Option.elim]
      rw [ih]
      exact Dict.keys_set_of_hasKey _ _ _ hk

theorem merge_get_of_not_mem (actual : Dict) : ∀ (result : Dict) (k : String),
    actual.get? k = none →
    (merge_with_defaults result actual).get? k = result.get? k := by
  induction actual with
  | nil => intro result k _; rw [merge_with_defaults]
  | cons hd rest ih =>
    intro result k h
    obtain ⟨key, value⟩ := hd
    have hne : ¬ key = k := by
      intro hk; simp [Dict.get?, hk] at h
    have hrest : Dict.get? rest k = none := by
      simpa [Dict.get?, hne] using h
    rw [merge_with_defaults]
    rcases hres : Dict.get? result key with _ | rv
    · exact ih result k hrest
    · simp only [Option.elim]
      rw [ih _ k hrest]
      exact Dict.get_set_ne result key k _ hne

theorem merge_get_obj (actual : Dict) : ∀ (result : Dict) (g : String) (sub evs : Dict),
    actual.keys.Nodup →
    actual.get? g = some (.jobj sub) →
    result.get? g = some (.jobj evs) →
    (merge_with_defaults result actual).get? g =
      some (.jobj (merge_with_defaults evs sub)) := by
  induction actual with
  | nil => intro result g sub evs _ h _; simp [Dict.get?] at h
  | cons hd rest ih =>
    intro result g sub evs hnd hget hres
    obtain ⟨key, value⟩ := hd
    rw [show Dict.keys ((key, value) :: rest) = key :: Dict.keys rest from rfl,
      List.nodup_cons] at hnd
    by_cases hkg : key = g
    · subst hkg
      have hval : value = .jobj sub := by
        simpa [Dict.get?] using hget
      subst hval
      rw [merge_with_defaults, hres]
      simp only [Option.elim, mergeVal_obj]
      have hrest : Dict.get? rest key = none :=
        Dict.get_none_of_not_mem_keys rest key hnd.1
      rw [merge_get_of_not_mem rest _ key hrest, Dict.get_set_self]
    · have hrest : Dict.get? rest g = some (.jobj sub) := by
        simpa [Dict.get?, hkg] using hget
      rw [merge_with_defaults]
      rcases hres₁ : Dict.get? result key with _ | rv
      · exact ih result g sub evs hnd.2 hrest hres
      · simp only [Option.elim]
        have hres₂ : Dict.get? (Dict.set result key (mergeVal value rv)) g
            = some (.jobj evs) := by
          rw [Dict.get_set_ne result key g _ hkg]; exact hres
        exact ih _ g sub evs hnd.2 hrest hres₂

theorem merge_get_scalar (actual : Dict) : ∀ (result : Dict) (g : String) (v : JValue),
    actual.keys.Nodup →
    actual.get? g = some v →
    (∀ avs, v ≠ JValue.jobj avs) →
    result.hasKey g = true →
    (merge_with_defaults result actual).get? g = some v := by
  induction actual with
  | nil => intro result g v _ h _ _; simp [Dict.get?] at h
  | cons hd rest ih =>
    intro result g v hnd hget hobj hres
    obtain ⟨key, value⟩ := hd
    rw [show Dict.keys ((key, value) :: rest) = key :: Dict.keys rest from rfl,
      List.nodup_cons] at hnd
    by_cases hkg : key = g
    · subst hkg
      have hval : value = v := by simpa [Dict.get?] using hget
      subst hval
      rcases hres₁ : Dict.get? result key with _ | rv
      · simp [Dict.hasKey, hres₁] at hres
      · rw [merge_with_defaults, hres₁]
        simp only [Option.elim]
        rw [mergeVal_scalar _ _ hobj]
        have hrest : Dict.get? rest key = none :=
          Dict.get_none_of_not_mem_keys rest key hnd.1
        rw [merge_get_of_not_mem rest _ key hrest, Dict.get_set_self]
    · have hrest : Dict.get? rest g = some v := by
        simpa [Dict.get?, hkg] using hget
      rw [merge_with_defaults]
      rcases hres₁ : Dict.get? result key with _ | rv
      · exact ih result g v hnd.2 hrest hobj hres
      · simp only [Option.elim]
        have hres₂ : (Dict.set result key (mergeVal value rv)).hasKey g = true := by
          rw [Dict.hasKey_set]; simp [hres]
        exact ih _ g v hnd.2 hrest hobj hres₂

/-! ### Carry-over lemmas -/

theorem carryOver_hasKey_of_hasKey (place_details d : Dict) (f : String)
    (h : d.hasKey f = true) : (carryOver place_details d).hasKey f = true := by
  induction place_details generalizing d with
  | nil => exact h
  | cons hd tl ih =>
    by_cases hskip : hd.1 ∈ carryOverSkipKeys
    · simp only [carryOver, if_pos hskip]
      exact ih d h
    · simp only [carryOver, if_neg hskip]
      have h₁ : (d.set hd.1 hd.2).hasKey f = true := by
        simp [Dict.hasKey_set, h]
      exact ih (d.set hd.1 hd.2) h₁

/-! ### Photo padding and search-result lemmas -/

theorem padPhotoUrls_eq_aux : ∀ (n : ℕ) (l : List String), 3 - l.length ≤ n →
    padPhotoUrls l = l ++ List.replicate (3 - l.length) "N/A" := by
  intro n
  induction n with
  | zero =>
    intro l h
    have h₃ : ¬ l.length < 3 := by omega
    have h₀ : 3 - l.length = 0 := by omega
    rw [padPhotoUrls, dif_neg h₃, h₀]
    simp
  | succ n ih =>
    intro l h
    by_cases h₃ : l.length < 3
    · rw [padPhotoUrls, dif_pos h₃, ih (l ++ ["N/A"]) (by simp; omega)]
      have h₁ : 3 - l.length = (3 - (l ++ ["N/A"]).length) + 1 := by simp; omega
      rw [h₁, List.replicate_succ]
      simp
    · have h₀ : 3 - l.length = 0 := by omega
      rw [padPhotoUrls, dif_neg h₃, h₀]
      simp

theorem padPhotoUrls_eq (l : List String) :
    padPhotoUrls l = l ++ List.replicate (3 - l.length) "N/A" :=
  padPhotoUrls_eq_aux 3 l (by omega)

theorem padPhotoUrls_length (l : List String) (h : l.length ≤ 3) :
    (padPhotoUrls l).length = 3 := by
  rw [padPhotoUrls_eq]
  simp
  omega

/-- The photo collection loop of search_places_with_details equals mapping
the URL constructor over the first three photos that carry a non-empty
name. -/
theorem photoLoop_eq (apiKey : String) (photos : List GPhoto) :
    photos.foldl
      (fun acc ph => if ph.name ≠ "" then acc ++ [photoUrl apiKey ph.name] else acc) [] =
    (photos.filter (fun ph => ph.name ≠ "")).map (fun ph => photoUrl apiKey ph.name) := by
  have haux : ∀ (ps : List GPhoto) (acc : List String),
      ps.foldl
        (fun acc ph => if ph.name ≠ "" then acc ++ [photoUrl apiKey ph.name] else acc) acc =
      acc ++ (ps.filter (fun ph => ph.name ≠ "")).map (fun ph => photoUrl apiKey ph.name) := by
    intro ps
    induction ps with
    | nil => intro acc; simp
    | cons hd tl ih =>
      intro acc
      by_cases h : hd.name = ""
      · rw [List.foldl_cons, if_neg (by simp [h]), List.filter_cons,
          if_neg (by simp [h]), ih]
      · rw [List.foldl_cons, if_pos (by simp [h]), List.filter_cons,
          if_pos (by simp [h]), ih]
        simp
  simpa using haux photos []

/-- No outcome of the places search produces a dict with the literal key
error: failures use descriptive keys, success uses the fixed field keys. -/
theorem search_never_error_key (apiKey : String) (resp : PlacesResp) :
    (search_places_with_details apiKey resp).hasKey "error" = false := by
  cases resp with
  | transportError msg => rfl
  | parseError msg => rfl
  | otherError msg => rfl
  | ok places =>
    cases places with
    | nil => rfl
    | cons place rest => rfl

/-- The resolver never produces a dict with the literal key error: both the
parsed branch and every fallback branch return exactly a place_name and a
city binding. -/
theorem resolver_never_error_key (jsonParse : String → Option JValue)
    (resp : LLMResp) (activity_name : String) (context_city : Option String) :
    (get_google_places_search_params jsonParse resp activity_name context_city).hasKey
      "error" = false := by
  cases resp with
  | transportError msg => rfl
  | respJsonError msg => rfl
  | noChoices => rfl
  | content raw =>
    rcases h : jsonParse (stripFences raw) with _ | v
    · simp [get_google_places_search_params, h]; rfl
    · cases v <;> simp [get_google_places_search_params, h] <;> rfl

/-! ### Orchestrator reduction lemmas -/

/-- The four-field context that populate_accommodation passes to the LLMs,
as extracted from the first place of a successful search. -/
def placesContext (place : GPlace) : Dict :=
  [("Formatted Address", .jstr (place.formattedAddress.getD "N/A")),
   ("Description", .jstr (placeDescription place)),
   ("google_rating", placeRating place),
   ("Category", .jstr (placeCategory place))]

/-- populate_activities reduced past the resolver check, which never fires:
a dict formatter output is carried over when error-free and gets Name
overwritten; a non-dict formatter output ends in the raised TypeError. -/
theorem populate_activities_reduce (jp : String → Option JValue) (pk kk : String)
    (rr : LLMResp) (ps : PlacesResp) (pr fr : LLMResp) (n c : String) :
    populate_activities ⟨jp, pk, kk, rr, ps, pr, fr⟩ n c
      = match format_perplexity_output jp fr with
        | .jobj fo =>
          .ok (Dict.set (if ¬ Dict.hasKey fo "error" = true
                then carryOver (search_places_with_details pk ps) fo
                else fo) "Name" (.jstr n))
        | _ => .error (.typeError "item assignment on a non-dict formatter result") := by
  simp only [populate_activities]
  rw [resolver_never_error_key]
  rfl

/-- populate_activities when the formatter produced a dict. -/
theorem populate_activities_reduce_obj (jp : String → Option JValue) (pk kk : String)
    (rr : LLMResp) (ps : PlacesResp) (pr fr : LLMResp) (n c : String) (fo : Dict)
    (hfo : format_perplexity_output jp fr = .jobj fo) :
    populate_activities ⟨jp, pk, kk, rr, ps, pr, fr⟩ n c
      = .ok (Dict.set (if ¬ Dict.hasKey fo "error" = true
              then carryOver (search_places_with_details pk ps) fo
              else fo) "Name" (.jstr n)) := by
  rw [populate_activities_reduce, hfo]

/-- populate_dining reduced past the places error check, on a lookup result
that does not carry the error key. -/
theorem populate_dining_reduce (jp : String → Option JValue) (pk kk : String)
    (ps : PlacesResp) (pr fr : LLMResp) (n c : String)
    (h : (spec_search_places_with_details pk ps).hasKey "error" = false) :
    populate_dining ⟨jp, pk, kk, ps, pr, fr⟩ n c
      = (if ¬ (format_dining_perplexity_output jp fr).hasKey "error" = true
         then carryOver (spec_search_places_with_details pk ps)
           (format_dining_perplexity_output jp fr)
         else format_dining_perplexity_output jp fr).set "Name" (.jstr n) := by
  simp only [populate_dining]
  rw [h]
  rfl

/-- populate_accommodation on a search hit, reduced to its two remaining
stage checks and the final merge of website, photos and maps URL. -/
theorem populate_accommodation_reduce (jp : String → Option JValue) (pk kk : String)
    (p : GPlace) (rest : List GPlace) (pr fr : LLMResp) (n c : String) :
    populate_accommodation ⟨jp, pk, kk, .ok (p :: rest), pr, fr⟩ n c
      = (if (analyze_place_with_perplexity kk pr (placesContext p)).hasKey "error" = true
         then .ok [("error", .jstr "No perplexity data available")]
         else
           match format_with_azure_openai jp fr with
           | .jobj fo =>
             if Dict.hasKey fo "error" = true
             then .ok [("error", .jstr "No formatted output available")]
             else .ok (Dict.set (Dict.set (Dict.set fo "website"
                  (.jstr (cleanWebsite (p.websiteUri.getD "N/A")))) "photo_urls"
                  (.jarr ((photoUrlsOf pk p.photos).map .jstr))) "google_maps_url"
                  (.jstr (p.googleMapsUri.getD "N/A")))
           | v =>
             match pyContains v "error" with
             | some true => .ok [("error", .jstr "No formatted output available")]
             | _ => .error (.typeError "item assignment on a non-dict formatter result")) :=
  rfl

/-- populate_accommodation on a search hit when the formatter produced a
dict. -/
theorem populate_accommodation_reduce_obj (jp : String → Option JValue) (pk kk : String)
    (p : GPlace) (rest : List GPlace) (pr fr : LLMResp) (n c : String) (fo : Dict)
    (hfo : format_with_azure_openai jp fr = .jobj fo) :
    populate_accommodation ⟨jp, pk, kk, .ok (p :: rest), pr, fr⟩ n c
      = (if (analyze_place_with_perplexity kk pr (placesContext p)).hasKey "error" = true
         then .ok [("error", .jstr "No perplexity data available")]
         else if Dict.hasKey fo "error" = true
         then .ok [("error", .jstr "No formatted output available")]
         else .ok (Dict.set (Dict.set (Dict.set fo "website"
              (.jstr (cleanWebsite (p.websiteUri.getD "N/A")))) "photo_urls"
              (.jarr ((photoUrlsOf pk p.photos).map .jstr))) "google_maps_url"
              (.jstr (p.googleMapsUri.getD "N/A")))) := by
  rw [populate_accommodation_reduce, hfo]

/-! ### Concrete fixtures for witnesses and counterexamples -/

/-- A json.loads oracle that fails on every input. -/
def jpNone : String → Option JValue := fun _ => none

/-- A json.loads oracle that parses every content text to the given object
bindings. -/
def parseObjOf (kvs : List (String × JValue)) : String → Option JValue :=
  fun _ => some (.jobj kvs)

/-- A minimal place object: address only, no photos, no reviews, no rating. -/
def samplePlace : GPlace :=
  { formattedAddress := some "Addr"
    types := []
    editorialSummary := none
    generativeSummary := none
    rating := none
    websiteUri := none
    googleMapsUri := none
    weekdayDescriptions := none
    photos := []
    reviews := [] }

/-- The search result extracted from samplePlace. -/
def samplePlaceDict : Dict :=
  [("Formatted Address", .jstr "Addr"),
   ("Category", .jstr "N/A"),
   ("Description", .jstr "N/A"),
   ("google_rating", .jstr "N/A"),
   ("website", .jstr "N/A"),
   ("google_maps_url", .jstr "N/A"),
   ("opening_hours", .jstr "N/A"),
   ("photo_urls", .jarr ((padPhotoUrls []).map .jstr)),
   ("reviews", .jarr [])]

theorem search_samplePlace (k : String) :
    search_places_with_details k (.ok [samplePlace]) = samplePlaceDict := rfl

/-- The padding loop on an empty URL list yields three padding entries. -/
theorem padPhotoUrls_nil : padPhotoUrls [] = ["N/A", "N/A", "N/A"] := by
  rw [padPhotoUrls_eq]
  rfl

/-! ### Claim C7 -/

/-- The resolver call outcomes on which the source takes a fallback branch:
transport failure, missing choices, response-json failure, or content whose
fence-stripped text does not parse to a JSON object. -/
def resolverFallbackCase (jsonParse : String → Option JValue) : LLMResp → Bool
  | .content raw =>
    match jsonParse (stripFences raw) with
    | some (.jobj _) => false
    | _ => true
  | _ => true

/-- C7: for every activity name and optional context city, the resolver
returns a mapping with exactly the keys place_name and city, never an
error-keyed result (and, being a total function of its oracle, never an
exception); on any transport failure, malformed or empty response, or
JSON-parse failure, it returns the original activity text trimmed as
place_name and the supplied (non-empty) context city, or the literal
Unknown when none was given, as city. -/
theorem C7_resolver_contract (jsonParse : String → Option JValue)
    (resp : LLMResp) (activity_name : String) (context_city : Option String)
    (hcity : context_city ≠ some "") :
    (get_google_places_search_params jsonParse resp activity_name context_city).keys
      = ["place_name", "city"] ∧
    (get_google_places_search_params jsonParse resp activity_name context_city).hasKey
      "error" = false ∧
    (resolverFallbackCase jsonParse resp = true →
      get_google_places_search_params jsonParse resp activity_name context_city
        = [("place_name", .jstr activity_name.trim),
           ("city", .jstr (context_city.getD "Unknown"))]) := by
  have hfb : fallbackCity context_city = context_city.getD "Unknown" := by
    cases context_city with
    | none => rfl
    | some c =>
      have hc : ¬ c = "" := by
        intro h; exact hcity (by rw [h])
      simp [fallbackCity, hc, Option.getD]
  refine ⟨?_, resolver_never_error_key jsonParse resp activity_name context_city, ?_⟩
  · cases resp with
    | transportError msg => rfl
    | respJsonError msg => rfl
    | noChoices => rfl
    | content raw =>
      rcases h : jsonParse (stripFences raw) with _ | v
      · simp [get_google_places_search_params, h, Dict.keys]
      · cases v <;> simp [get_google_places_search_params, h, Dict.keys]
  · intro hfall
    cases resp with
    | transportError msg => simp [get_google_places_search_params, hfb]
    | respJsonError msg => simp [get_google_places_search_params, hfb]
    | noChoices => simp [get_google_places_search_params, hfb]
    | content raw =>
      rcases h : jsonParse (stripFences raw) with _ | v
      · simp [get_google_places_search_params, h, hfb]
      · cases v <;> simp_all [get_google_places_search_params, h, hfb, resolverFallbackCase]

/-- Witness for C7 at a concrete fallback run: transport failure, no context
city, whitespace around the activity text. -/
theorem C7_witness :
    ((none : Option String) ≠ some "") ∧
    ((get_google_places_search_params jpNone (.transportError "boom")
        " Eiffel Tower " none).keys = ["place_name", "city"] ∧
     (get_google_places_search_params jpNone (.transportError "boom")
        " Eiffel Tower " none).hasKey "error" = false ∧
     (resolverFallbackCase jpNone (.transportError "boom") = true →
       get_google_places_search_params jpNone (.transportError "boom")
           " Eiffel Tower " none
         = [("place_name", .jstr (" Eiffel Tower ").trim),
            ("city", .jstr ((none : Option String).getD "Unknown"))])) :=
  ⟨by simp, C7_resolver_contract jpNone (.transportError "boom") " Eiffel Tower " none (by simp)⟩

/-! ### Claim C8 -/

/-- C8: whenever the places response contains at least one candidate, the
photo_urls entry of the returned record is a list of exactly 3 strings: the
constructed media URLs of the photos among the first three that carry a
non-empty name, followed by the literal padding string in every remaining
position. -/
theorem C8_photo_urls (apiKey : String) (place : GPlace) (rest : List GPlace) :
    ∃ urls : List String,
      (search_places_with_details apiKey (.ok (place :: rest))).get? "photo_urls"
        = some (.jarr (urls.map .jstr)) ∧
      urls.length = 3 ∧
      urls = ((place.photos.take 3).filter (fun ph => ph.name ≠ "")).map
               (fun ph => photoUrl apiKey ph.name)
             ++ List.replicate
                 (3 - ((place.photos.take 3).filter (fun ph => ph.name ≠ "")).length)
                 "N/A" := by
  refine ⟨padPhotoUrls ((place.photos.take 3).foldl
    (fun acc ph => if ph.name ≠ "" then acc ++ [photoUrl apiKey ph.name] else acc) []),
    ?_, ?_, ?_⟩
  · rfl
  · rw [photoLoop_eq]
    apply padPhotoUrls_length
    rw [List.length_map]
    exact le_trans (List.length_filter_le _ _) (by rw [List.length_take]; omega)
  · rw [photoLoop_eq, padPhotoUrls_eq, List.length_map]

/-! ### Claim C3 -/

/-- C3 counterexample: with zero search candidates the accommodation
orchestrator does not return a terminal not-found result; it raises KeyError
while building the LLM context from the empty mapping. -/
theorem C3_counterexample :
    populate_accommodation
        ⟨jpNone, "k", "pplx-key", .ok [], .content "research", .content "model output"⟩
        "Taj Lake Palace" "Udaipur"
      = .error (.keyError "Formatted Address") := rfl

/-- C3 amended: zero candidates yield the empty mapping, but the
orchestrators do not treat it as terminal: the research stage receives it
and itself rejects it with an error value for every call outcome (showing no
downstream call is consulted), while the accommodation orchestrator raises
KeyError for every research and formatter outcome. -/
theorem C3_amended :
    (∀ apiKey : String, search_places_with_details apiKey (.ok []) = []) ∧
    (∀ (jsonParse : String → Option JValue) (resp : LLMResp),
      analyze_activity_with_perplexity jsonParse "pplx-key" resp []
        = [("error", .jstr "No places data provided")]) ∧
    (∀ (pr fr : LLMResp) (n c : String),
      populate_accommodation ⟨jpNone, "k", "pplx-key", .ok [], pr, fr⟩ n c
        = .error (.keyError "Formatted Address")) :=
  ⟨fun _ => rfl, fun _ _ => rfl, fun _ _ _ _ => rfl⟩

/-! ### Claim C4 -/

/-- C4 counterexample: places transport and parse failures are reported
under descriptive keys, not under the literal error key. -/
theorem C4_counterexample :
    search_places_with_details "k" (.transportError "boom")
        = [("Error making Google Places API request", .jstr "boom")] ∧
    (search_places_with_details "k" (.transportError "boom")).hasKey "error" = false ∧
    search_places_with_details "k" (.parseError "bad json")
        = [("Error parsing JSON response in Google Places API", .jstr "bad json")] ∧
    (search_places_with_details "k" (.parseError "bad json")).hasKey "error" = false :=
  ⟨rfl, rfl, rfl, rfl⟩

/-- C4 amended: research and formatter failures are error-keyed result
values and the resolver never fails; but the activities places lookup
(present in src) reports its failures under descriptive phrase keys, never
under the literal error key, whereas the spec-modelled dining and
accommodation lookups report an explicit error mapping, which the
accommodation orchestrator returns as its first error result. -/
theorem C4_amended :
    (∀ (apiKey : String) (resp : PlacesResp),
      (search_places_with_details apiKey resp).hasKey "error" = false) ∧
    (∀ (jsonParse : String → Option JValue) (m : String),
      format_perplexity_output jsonParse (.transportError m)
        = .jobj [("error", .jstr ("Azure OpenAI API request failed: " ++ m))]) ∧
    (∀ raw : String,
      format_perplexity_output jpNone (.content raw)
        = .jobj [("error", .jstr "Failed to parse Azure OpenAI response as JSON")]) ∧
    (∀ (jsonParse : String → Option JValue) (apiKey m : String) (d : Dict),
      (analyze_activity_with_perplexity jsonParse apiKey (.transportError m) d).hasKey
        "error" = true) ∧
    (∀ (apiKey m : String),
      spec_search_places_with_details apiKey (.transportError m)
          = [("error", .jstr m)] ∧
      spec_search_places_with_details apiKey (.parseError m)
          = [("error", .jstr m)]) ∧
    (∀ (jp : String → Option JValue) (pk kk m : String) (pr fr : LLMResp) (n c : String),
      populate_accommodation ⟨jp, pk, kk, .transportError m, pr, fr⟩ n c
        = .ok [("error", .jstr m)]) := by
  refine ⟨search_never_error_key, fun _ _ => rfl, fun _ => rfl, ?_,
    fun _ _ => ⟨rfl, rfl⟩, fun _ _ _ _ _ _ _ _ => rfl⟩
  intro jsonParse apiKey m d
  by_cases hk : pyStartsWith apiKey "pplx-"
  · by_cases hd : d.isEmpty <;>
      simp [analyze_activity_with_perplexity, hk, hd, Dict.hasKey, Dict.get?]
  · simp [analyze_activity_with_perplexity, hk, Dict.hasKey, Dict.get?]

/-! ### Claim C2 -/

/-- C2 counterexample: a places transport failure does not short-circuit the
activities pipeline; the research and formatter stages still run, and the
returned mapping is the formatter output merged with the places error entry
and the Name binding, not the error-bearing places result itself. -/
theorem C2_counterexample :
    (populate_activities
        ⟨parseObjOf [], "k", "pplx-key", .transportError "r", .transportError "boom",
         .content "research", .content "model output"⟩
        "Eiffel Tower" "Paris").toOption.map
        (fun d => Dict.get? d "Error making Google Places API request")
      = some (some (.jstr "boom")) ∧
    (populate_activities
        ⟨parseObjOf [], "k", "pplx-key", .transportError "r", .transportError "boom",
         .content "research", .content "model output"⟩
        "Eiffel Tower" "Paris").toOption.map (fun d => Dict.get? d "Category")
      = some (some (.jstr "Not Available")) ∧
    (populate_activities
        ⟨parseObjOf [], "k", "pplx-key", .transportError "r", .transportError "boom",
         .content "research", .content "model output"⟩
        "Eiffel Tower" "Paris").toOption.map (fun d => Dict.get? d "Name")
      = some (some (.jstr "Eiffel Tower")) ∧
    populate_activities
        ⟨parseObjOf [], "k", "pplx-key", .transportError "r", .transportError "boom",
         .content "research", .content "model output"⟩
        "Eiffel Tower" "Paris"
      ≠ .ok (search_places_with_details "k" (.transportError "boom")) := by
  refine ⟨rfl, rfl, rfl, ?_⟩
  intro h
  have h₁ : (populate_activities
        ⟨parseObjOf [], "k", "pplx-key", .transportError "r", .transportError "boom",
         .content "research", .content "model output"⟩
        "Eiffel Tower" "Paris").toOption.map (fun d => Dict.get? d "Name")
      = (Except.ok (search_places_with_details "k" (.transportError "boom")) :
          Except PyError Dict).toOption.map (fun d => Dict.get? d "Name") := by
    rw [h]
  rw [show (populate_activities
        ⟨parseObjOf [], "k", "pplx-key", .transportError "r", .transportError "boom",
         .content "research", .content "model output"⟩
        "Eiffel Tower" "Paris").toOption.map (fun d => Dict.get? d "Name")
      = some (some (.jstr "Eiffel Tower")) from rfl,
      show (Except.ok (search_places_with_details "k" (.transportError "boom")) :
          Except PyError Dict).toOption.map (fun d => Dict.get? d "Name")
        = some none from rfl] at h₁
  exact Option.noConfusion (Option.some.inj h₁)

/-- C2 amended: the accommodation orchestrator short-circuits on each stage:
an error-keyed lookup failure is returned unchanged, a research failure
yields the fixed no-perplexity-data error for every formatter outcome (the
formatter is never consulted), and a formatter failure yields the fixed
no-formatted-output error; the dining orchestrator short-circuits only on an
error-keyed lookup failure, returned unchanged; the activities orchestrator
checks only the resolver result, so a formatter failure still flows through
the final Name assignment and is returned as the error mapping with Name
appended. -/
theorem C2_amended :
    (∀ (jp : String → Option JValue) (pk kk m : String) (pr fr : LLMResp) (n c : String),
      populate_dining ⟨jp, pk, kk, .transportError m, pr, fr⟩ n c
        = [("error", .jstr m)]) ∧
    (∀ (jp : String → Option JValue) (pk kk m : String) (pr fr : LLMResp) (n c : String),
      populate_accommodation ⟨jp, pk, kk, .transportError m, pr, fr⟩ n c
        = .ok [("error", .jstr m)]) ∧
    (∀ (p : GPlace) (rest : List GPlace) (m : String) (fr : LLMResp) (n c : String),
      populate_accommodation ⟨jpNone, "k", "pplx-key", .ok (p :: rest),
          .transportError m, fr⟩ n c
        = .ok [("error", .jstr "No perplexity data available")]) ∧
    (∀ (p : GPlace) (rest : List GPlace) (m : String) (n c : String),
      populate_accommodation ⟨jpNone, "k", "pplx-key", .ok (p :: rest),
          .content "research", .transportError m⟩ n c
        = .ok [("error", .jstr "No formatted output available")]) ∧
    (∀ (m : String) (n c : String),
      populate_activities ⟨jpNone, "k", "pplx-key", .transportError "r",
          .ok [samplePlace], .content "research", .transportError m⟩ n c
        = .ok [("error", .jstr ("Azure OpenAI API request failed: " ++ m)),
           ("Name", .jstr n)]) :=
  ⟨fun _ _ _ _ _ _ _ _ => rfl, fun _ _ _ _ _ _ _ _ => rfl, fun _ _ _ _ _ _ => rfl,
   fun _ _ _ _ _ => rfl, fun _ _ _ => rfl⟩

/-! ### Claim C5 -/

/-- C5 counterexample: the accommodation pipeline does not overwrite the
Name field with the user input; when the formatter model omits Name, the
returned record carries the back-filled placeholder instead of the original
accommodation name. -/
theorem C5_counterexample :
    (populate_accommodation
        ⟨parseObjOf [], "k", "pplx-key", .ok [samplePlace], .content "research",
         .content "model output"⟩
        "Taj Lake Palace" "Udaipur").toOption.map (fun d => Dict.get? d "Name")
      = some (some (.jstr "N/A")) := rfl

/-- C5 amended: the activities orchestrator overwrites Name with the
user-supplied text verbatim on every run that returns a record (a non-dict
formatter result instead escapes as a TypeError); the dining orchestrator
overwrites Name on every run whose lookup result does not carry the error
key (an error-keyed lookup failure is returned unchanged, without Name);
the accommodation orchestrator leaves Name to the formatter model. -/
theorem C5_amended :
    (∀ (jp : String → Option JValue) (pk kk : String) (rr : LLMResp) (ps : PlacesResp)
       (pr fr : LLMResp) (n c : String) (d : Dict),
      populate_activities ⟨jp, pk, kk, rr, ps, pr, fr⟩ n c = .ok d →
      d.get? "Name" = some (.jstr n)) ∧
    (∀ (env : DiningEnv) (n c : String),
      (spec_search_places_with_details env.placesApiKey env.placesResp).hasKey "error"
        = false →
      (populate_dining env n c).get? "Name" = some (.jstr n)) := by
  constructor
  · intro jp pk kk rr ps pr fr n c d h
    rw [populate_activities_reduce] at h
    rcases hfo : format_perplexity_output jp fr with _ | b | q | s | xs | kvs <;>
      rw [hfo] at h
    · cases h
    · cases h
    · cases h
    · cases h
    · cases h
    · cases h
      exact Dict.get_set_self _ _ _
  · intro env n c h
    obtain ⟨jp, pk, kk, ps, pr, fr⟩ := env
    rw [populate_dining_reduce jp pk kk ps pr fr n c h]
    exact Dict.get_set_self _ _ _

/-- Witness for C5 at a concrete formatter-failure run of each pipeline. -/
theorem C5_witness :
    populate_activities ⟨jpNone, "k", "pplx-key", .transportError "r", .ok [samplePlace],
        .content "research", .transportError "fm"⟩ "Eiffel Tower" "Paris"
      = .ok [("error", .jstr ("Azure OpenAI API request failed: " ++ "fm")),
          ("Name", .jstr "Eiffel Tower")] ∧
    Dict.get? [("error", .jstr ("Azure OpenAI API request failed: " ++ "fm")),
        ("Name", .jstr "Eiffel Tower")] "Name" = some (.jstr "Eiffel Tower") ∧
    (spec_search_places_with_details "k" (.ok [])).hasKey "error" = false ∧
    (populate_dining ⟨jpNone, "k", "pplx-key", .ok [], .content "research",
        .transportError "fm"⟩ "Bukhara" "Delhi").get? "Name" = some (.jstr "Bukhara") :=
  ⟨rfl,
   C5_amended.1 jpNone "k" "pplx-key" (.transportError "r") (.ok [samplePlace])
     (.content "research") (.transportError "fm") "Eiffel Tower" "Paris"
     [("error", .jstr ("Azure OpenAI API request failed: " ++ "fm")),
      ("Name", .jstr "Eiffel Tower")] rfl,
   rfl,
   C5_amended.2 ⟨jpNone, "k", "pplx-key", .ok [], .content "research",
     .transportError "fm"⟩ "Bukhara" "Delhi" rfl⟩

/-! ### Claim C6 -/

/-- C6 counterexample: a fully successful activities run in which the
formatter model supplied the string Yes for Must_Do returns that string
verbatim in a non-error record; no local coercion to a boolean happens. -/
theorem C6_counterexample :
    (populate_activities
        ⟨parseObjOf [("Must_Do", .jstr "Yes")], "k", "pplx-key", .transportError "r",
         .ok [samplePlace], .content "research", .content "model output"⟩
        "Eiffel Tower" "Paris").toOption.map (fun d => Dict.get? d "Must_Do")
      = some (some (.jstr "Yes")) ∧
    (populate_activities
        ⟨parseObjOf [("Must_Do", .jstr "Yes")], "k", "pplx-key", .transportError "r",
         .ok [samplePlace], .content "research", .content "model output"⟩
        "Eiffel Tower" "Paris").toOption.map (fun d => Dict.hasKey d "error")
      = some false :=
  ⟨rfl, rfl⟩

/-- C6 amended: the local code guarantees boolean values only for the
boolean fields the formatter model omitted (back-filled with false, for
activities and for the dining structure); any value the model supplied for a
boolean field is passed through unchanged, so strings survive. -/
theorem C6_amended :
    (∀ (jp : String → Option JValue) (raw : String) (kvs : Dict) (f : String),
      jp (stripFences raw) = some (.jobj kvs) →
      f ∈ activitiesBoolFields →
      kvs.hasKey f = false →
      (format_perplexity_output jp (.content raw)).objGet? f = some (.jbool false)) ∧
    (∀ (jp : String → Option JValue) (raw : String) (kvs : Dict) (f : String) (v : JValue),
      jp (stripFences raw) = some (.jobj kvs) →
      f ∈ activitiesBoolFields →
      kvs.get? f = some v →
      (format_perplexity_output jp (.content raw)).objGet? f = some v) ∧
    (∀ (jp : String → Option JValue) (raw : String) (kvs : Dict),
      jp (stripFences raw) = some (.jobj kvs) →
      kvs.get? "Private_Dining" = none →
      (format_dining_perplexity_output jp (.content raw)).get? "Private_Dining"
        = some (.jbool false)) := by
  refine ⟨?_, ?_, ?_⟩
  · intro jp raw kvs f hp hf hnk
    simp only [format_perplexity_output, hp, JValue.objGet?]
    rw [backfill_get_of_mem_not_hasKey activitiesDefault activitiesRequiredFields kvs f
        (List.mem_append_right _ hf) hnk]
    simp [activitiesDefault, hf]
  · intro jp raw kvs f v hp hf hv
    simp only [format_perplexity_output, hp, JValue.objGet?]
    rw [backfill_get_of_hasKey activitiesDefault activitiesRequiredFields kvs f
        (by simp [Dict.hasKey, hv])]
    exact hv
  · intro jp raw kvs hp hn
    simp only [format_dining_perplexity_output, hp]
    rw [merge_get_of_not_mem kvs expectedDiningStructure "Private_Dining" hn]
    rfl

/-- Witness for C6 at a concrete model object that supplies Party as a
string and omits every other boolean field. -/
theorem C6_witness :
    (parseObjOf [("Party", .jstr "Yes")] (stripFences "model output")
      = some (.jobj [("Party", .jstr "Yes")])) ∧
    "Must_Do" ∈ activitiesBoolFields ∧
    Dict.hasKey [("Party", .jstr "Yes")] "Must_Do" = false ∧
    "Party" ∈ activitiesBoolFields ∧
    Dict.get? [("Party", .jstr "Yes")] "Party" = some (.jstr "Yes") ∧
    Dict.get? [("Party", .jstr "Yes")] "Private_Dining" = none ∧
    (format_perplexity_output (parseObjOf [("Party", .jstr "Yes")])
        (.content "model output")).objGet? "Must_Do" = some (.jbool false) ∧
    (format_perplexity_output (parseObjOf [("Party", .jstr "Yes")])
        (.content "model output")).objGet? "Party" = some (.jstr "Yes") ∧
    (format_dining_perplexity_output (parseObjOf [("Party", .jstr "Yes")])
        (.content "model output")).get? "Private_Dining" = some (.jbool false) :=
  ⟨rfl, by decide, rfl, by decide, rfl, rfl,
   C6_amended.1 (parseObjOf [("Party", .jstr "Yes")]) "model output"
     [("Party", .jstr "Yes")] "Must_Do" rfl (by decide) rfl,
   C6_amended.2.1 (parseObjOf [("Party", .jstr "Yes")]) "model output"
     [("Party", .jstr "Yes")] "Party" (.jstr "Yes") rfl (by decide) rfl,
   C6_amended.2.2 (parseObjOf [("Party", .jstr "Yes")]) "model output"
     [("Party", .jstr "Yes")] rfl rfl⟩

/-! ### Claim C1 -/

/-- C1 counterexample: the activities back-fill list omits the geographic
fields, so Country can be absent from the formatter output, and Duration is
back-filled with a placeholder string rather than a number; the accommodation
back-fill list spells the third destination level with Zone, so the schema
key Destination L3 (Area) can be absent from the orchestrator output while
the misspelled key is present. -/
theorem C1_counterexample :
    (format_perplexity_output (parseObjOf []) (.content "model output")).objGet? "Country"
      = none ∧
    (format_perplexity_output (parseObjOf []) (.content "model output")).objGet? "Duration"
      = some (.jstr "Not Available") ∧
    (populate_accommodation
        ⟨parseObjOf [], "k", "pplx-key", .ok [samplePlace], .content "research",
         .content "model output"⟩ "A" "B").toOption.map
        (fun d => Dict.get? d "Destination L3 (Area)") = some none ∧
    (populate_accommodation
        ⟨parseObjOf [], "k", "pplx-key", .ok [samplePlace], .content "research",
         .content "model output"⟩ "A" "B").toOption.map
        (fun d => Dict.get? d "Destination L3 (Zone/ Area)")
      = some (some (.jstr "N/A")) :=
  ⟨rfl, rfl, rfl, rfl⟩

/-- C1 amended: the orchestrator output always contains every key of the
back-fill list actually present in the code — for activities the twenty
fields from Category to Senior_Citizen_Friendly (the geographic fields only
when the model supplies them), for accommodation the fourteen names of the
source list, which include Destination L3 (Zone/ Area) in place of the
schema spelling Destination L3 (Area). -/
theorem C1_amended :
    (∀ (jp : String → Option JValue) (pk kk : String) (rr : LLMResp) (ps : PlacesResp)
       (pr : LLMResp) (fraw : String) (kvs : Dict) (n c f : String),
      jp (stripFences fraw) = some (.jobj kvs) →
      f ∈ activitiesRequiredFields →
      ∃ d, populate_activities ⟨jp, pk, kk, rr, ps, pr, .content fraw⟩ n c = .ok d ∧
        d.hasKey f = true) ∧
    (∀ (jp : String → Option JValue) (pk kk praw fraw : String) (kvs : Dict)
       (p : GPlace) (rest : List GPlace) (n c : String),
      pyStartsWith kk "pplx-" = true →
      jp (stripFences fraw) = some (.jobj kvs) →
      kvs.hasKey "error" = false →
      ∃ d, populate_accommodation ⟨jp, pk, kk, .ok (p :: rest), .content praw,
          .content fraw⟩ n c = .ok d ∧
        ∀ f ∈ accommodationRequiredFields, d.hasKey f = true) := by
  constructor
  · intro jp pk kk rr ps pr fraw kvs n c f hparse hf
    have hfo : format_perplexity_output jp (.content fraw)
        = .jobj (backfill activitiesDefault activitiesRequiredFields kvs) := by
      simp only [format_perplexity_output, hparse]
    rw [populate_activities_reduce_obj jp pk kk rr ps pr (.content fraw) n c _ hfo]
    refine ⟨_, rfl, ?_⟩
    by_cases he : (backfill activitiesDefault activitiesRequiredFields kvs).hasKey "error"
    · rw [if_neg (by simp [he])]
      rw [Dict.hasKey_set]
      simp [backfill_hasKey_of_mem activitiesDefault activitiesRequiredFields kvs f hf]
    · rw [if_pos (by simp [he])]
      rw [Dict.hasKey_set]
      simp [carryOver_hasKey_of_hasKey _ _ f
        (backfill_hasKey_of_mem activitiesDefault activitiesRequiredFields kvs f hf)]
  · intro jp pk kk praw fraw kvs p rest n c hkk hparse he
    have hb : (backfill accommodationDefault accommodationRequiredFields kvs).hasKey
        "error" = false :=
      backfill_hasKey_false accommodationDefault accommodationRequiredFields kvs "error"
        (by decide) he
    have hfo : format_with_azure_openai jp (.content fraw)
        = .jobj (backfill accommodationDefault accommodationRequiredFields kvs) := by
      simp only [format_with_azure_openai, hparse]
    have hana : (analyze_place_with_perplexity kk (.content praw)
        (placesContext p)).hasKey "error" = false := by
      simp [analyze_place_with_perplexity, hkk, placesContext, Dict.hasKey, Dict.get?]
    rw [populate_accommodation_reduce_obj jp pk kk p rest (.content praw) (.content fraw)
      n c _ hfo, if_neg (by simp [hana]), if_neg (by simp [hb])]
    refine ⟨_, rfl, ?_⟩
    intro f hf
    rw [Dict.hasKey_set, Dict.hasKey_set, Dict.hasKey_set]
    simp [backfill_hasKey_of_mem accommodationDefault accommodationRequiredFields kvs f hf]

/-- Witness for C1 at a model object that supplies Country only. -/
theorem C1_witness :
    parseObjOf [("Country", .jstr "India")] (stripFences "model output")
      = some (.jobj [("Country", .jstr "India")]) ∧
    "Category" ∈ activitiesRequiredFields ∧
    pyStartsWith "pplx-key" "pplx-" = true ∧
    Dict.hasKey [("Country", .jstr "India")] "error" = false ∧
    (∃ d, populate_activities ⟨parseObjOf [("Country", .jstr "India")], "k", "pplx-key",
        .transportError "r", .ok [samplePlace], .content "research",
        .content "model output"⟩ "Eiffel Tower" "Paris" = .ok d ∧
      d.hasKey "Category" = true) ∧
    (∃ d, populate_accommodation ⟨parseObjOf [("Country", .jstr "India")], "k",
        "pplx-key", .ok [samplePlace], .content "research", .content "model output"⟩
        "A" "B" = .ok d ∧
      ∀ f ∈ accommodationRequiredFields, d.hasKey f = true) :=
  ⟨rfl, by decide, rfl, rfl,
   C1_amended.1 (parseObjOf [("Country", .jstr "India")]) "k" "pplx-key"
     (.transportError "r") (.ok [samplePlace]) (.content "research") "model output"
     [("Country", .jstr "India")] "Eiffel Tower" "Paris" "Category" rfl (by decide),
   C1_amended.2 (parseObjOf [("Country", .jstr "India")]) "k" "pplx-key" "research"
     "model output" [("Country", .jstr "India")] samplePlace [] "A" "B" rfl rfl rfl⟩

/-! ### Claim C10 -/

/-- C10 counterexample: when the formatter model supplies a non-object value
for a nested group, the merge stores that value verbatim, so the group does
not contain its documented sub-field set. -/
theorem C10_counterexample :
    (format_dining_perplexity_output (parseObjOf [("Meals_Served", .jstr "All day")])
        (.content "model output")).get? "Meals_Served" = some (.jstr "All day") :=
  merge_get_scalar [("Meals_Served", .jstr "All day")] expectedDiningStructure
    "Meals_Served" (.jstr "All day") (by simp [Dict.keys]) rfl
    (fun avs h => by cases h) rfl

/-- C10 amended: the success result of the dining formatter has exactly the
expected top-level key set (model-supplied extras are discarded); every key
the model omitted keeps its default, and every nested group for which the
model supplied an object is the recursive merge of that object into the
default group, which keeps the full documented sub-field set and the false
default on every omitted sub-field; a non-object value supplied for a group
replaces the group wholesale. -/
theorem C10_amended :
    (∀ (jp : String → Option JValue) (raw : String) (kvs : Dict),
      jp (stripFences raw) = some (.jobj kvs) →
      (format_dining_perplexity_output jp (.content raw)).keys
        = expectedDiningStructure.keys) ∧
    (∀ (jp : String → Option JValue) (raw : String) (kvs : Dict) (k : String),
      jp (stripFences raw) = some (.jobj kvs) →
      kvs.get? k = none →
      (format_dining_perplexity_output jp (.content raw)).get? k
        = expectedDiningStructure.get? k) ∧
    (∀ (jp : String → Option JValue) (raw : String) (kvs sub evs : Dict) (g : String),
      jp (stripFences raw) = some (.jobj kvs) →
      kvs.keys.Nodup →
      kvs.get? g = some (.jobj sub) →
      expectedDiningStructure.get? g = some (.jobj evs) →
      (format_dining_perplexity_output jp (.content raw)).get? g
          = some (.jobj (merge_with_defaults evs sub)) ∧
        (merge_with_defaults evs sub).keys = evs.keys ∧
        ∀ sf : String, sub.get? sf = none →
          (merge_with_defaults evs sub).get? sf = evs.get? sf) := by
  refine ⟨?_, ?_, ?_⟩
  · intro jp raw kvs hp
    simp only [format_dining_perplexity_output, hp]
    exact merge_keys kvs expectedDiningStructure
  · intro jp raw kvs k hp hk
    simp only [format_dining_perplexity_output, hp]
    exact merge_get_of_not_mem kvs expectedDiningStructure k hk
  · intro jp raw kvs sub evs g hp hnd hg hex
    refine ⟨?_, merge_keys sub evs,
      fun sf hsf => merge_get_of_not_mem sub evs sf hsf⟩
    simp only [format_dining_perplexity_output, hp]
    exact merge_get_obj kvs expectedDiningStructure g sub evs hnd hg hex

/-- Witness for C10 at a model object supplying one partial group, one
unexpected key and nothing else. -/
theorem C10_witness :
    parseObjOf [("Meals_Served", .jobj [("Breakfast", .jbool true)]),
        ("Bogus", .jstr "x")] (stripFences "model output")
      = some (.jobj [("Meals_Served", .jobj [("Breakfast", .jbool true)]),
          ("Bogus", .jstr "x")]) ∧
    (Dict.keys [("Meals_Served", .jobj [("Breakfast", .jbool true)]),
        ("Bogus", .jstr "x")]).Nodup ∧
    Dict.get? [("Meals_Served", .jobj [("Breakfast", .jbool true)]),
        ("Bogus", .jstr "x")] "Country" = none ∧
    Dict.get? [("Meals_Served", .jobj [("Breakfast", .jbool true)]),
        ("Bogus", .jstr "x")] "Meals_Served"
      = some (.jobj [("Breakfast", .jbool true)]) ∧
    expectedDiningStructure.get? "Meals_Served"
      = some (.jobj [("Breakfast", .jbool false), ("Lunch", .jbool false),
          ("Dinner", .jbool false), ("Late_Night", .jbool false),
          ("24_Hours", .jbool false)]) ∧
    (format_dining_perplexity_output
        (parseObjOf [("Meals_Served", .jobj [("Breakfast", .jbool true)]),
          ("Bogus", .jstr "x")]) (.content "model output")).keys
      = expectedDiningStructure.keys ∧
    (format_dining_perplexity_output
        (parseObjOf [("Meals_Served", .jobj [("Breakfast", .jbool true)]),
          ("Bogus", .jstr "x")]) (.content "model output")).get? "Country"
      = expectedDiningStructure.get? "Country" ∧
    ((format_dining_perplexity_output
        (parseObjOf [("Meals_Served", .jobj [("Breakfast", .jbool true)]),
          ("Bogus", .jstr "x")]) (.content "model output")).get? "Meals_Served"
        = some (.jobj (merge_with_defaults
            [("Breakfast", .jbool false), ("Lunch", .jbool false),
             ("Dinner", .jbool false), ("Late_Night", .jbool false),
             ("24_Hours", .jbool false)]
            [("Breakfast", .jbool true)])) ∧
      (merge_with_defaults
          [("Breakfast", .jbool false), ("Lunch", .jbool false),
           ("Dinner", .jbool false), ("Late_Night", .jbool false),
           ("24_Hours", .jbool false)]
          [("Breakfast", .jbool true)]).keys
        = Dict.keys [("Breakfast", .jbool false), ("Lunch", .jbool false),
            ("Dinner", .jbool false), ("Late_Night", .jbool false),
            ("24_Hours", .jbool false)] ∧
      ∀ sf : String, Dict.get? [("Breakfast", .jbool true)] sf = none →
        (merge_with_defaults
            [("Breakfast", .jbool false), ("Lunch", .jbool false),
             ("Dinner", .jbool false), ("Late_Night", .jbool false),
             ("24_Hours", .jbool false)]
            [("Breakfast", .jbool true)]).get? sf
          = Dict.get? [("Breakfast", .jbool false), ("Lunch", .jbool false),
              ("Dinner", .jbool false), ("Late_Night", .jbool false),
              ("24_Hours", .jbool false)] sf) :=
  ⟨rfl, by simp [Dict.keys], rfl, rfl, rfl,
   C10_amended.1 (parseObjOf [("Meals_Served", .jobj [("Breakfast", .jbool true)]),
     ("Bogus", .jstr "x")]) "model output"
     [("Meals_Served", .jobj [("Breakfast", .jbool true)]), ("Bogus", .jstr "x")] rfl,
   C10_amended.2.1 (parseObjOf [("Meals_Served", .jobj [("Breakfast", .jbool true)]),
     ("Bogus", .jstr "x")]) "model output"
     [("Meals_Served", .jobj [("Breakfast", .jbool true)]), ("Bogus", .jstr "x")]
     "Country" rfl rfl,
   C10_amended.2.2 (parseObjOf [("Meals_Served", .jobj [("Breakfast", .jbool true)]),
     ("Bogus", .jstr "x")]) "model output"
     [("Meals_Served", .jobj [("Breakfast", .jbool true)]), ("Bogus", .jstr "x")]
     [("Breakfast", .jbool true)]
     [("Breakfast", .jbool false), ("Lunch", .jbool false), ("Dinner", .jbool false),
      ("Late_Night", .jbool false), ("24_Hours", .jbool false)]
     "Meals_Served" rfl (by simp [Dict.keys]) rfl rfl⟩

end KB
